import Mathlib

/-!
# Edwards25519/Keccak signer of the keys package

A shallow embedding of `keys/signer_edwards25519_keccak.go`:
`SignerEdwards25519Keccak.PublicKey`, `SignerEdwards25519Keccak.Sign` and
`SignerEdwards25519Keccak.Verify`.

Go pointers are `Option` values (`none` is the nil pointer) and a nil
dereference is the outcome `Outcome.panic`.  A Go `error` is `Option GoError`
(`none` is the nil error).  The functions that the signer calls and that live
in other packages (`KeyPair.IsValid`, `asserter.Signatures`, and the
`nemcrypto` primitives instantiated with the legacy Keccak-512 hasher) are
fields of `Collaborators`; every theorem holds for all of them unless a
hypothesis says otherwise.
-/

namespace keys

/-- A Go byte slice; only the length and the identity of its contents matter. -/
abbrev ByteSlice := List Nat

/-- The string type `types.SignatureType`. -/
abbrev SignatureType := String

/-- Modelled from the spec: the scheme identifier `types.Ed25519_Keccak`, a
constant of the types package that is not part of the sources at hand.  Only
that it is a non-empty string different from the other identifiers is used. -/
def Ed25519_Keccak : SignatureType := "ed25519_keccak"

/-- Modelled from the spec: the identifier `types.Ecdsa` of another known
scheme (constant of the types package). -/
def Ecdsa : SignatureType := "ecdsa"

/-- Modelled from the spec: the identifier `types.EcdsaRecovery` of another
known scheme (constant of the types package). -/
def EcdsaRecovery : SignatureType := "ecdsa_recovery"

/-- A Go error value: a package-level error variable, identified by its name,
or the result of `fmt.Errorf` with a trailing `: %w`, made of the formatted
text in front of the cause and the wrapped cause. -/
inductive GoError where
  | sentinel (name : String)
  | wrap (msg : String) (cause : GoError)
deriving DecidableEq, Repr

/-- The function `errors.Is`: the target is the error itself or one of the
errors it wraps. -/
def GoError.Is : GoError → GoError → Bool
  | .sentinel n, target => decide (GoError.sentinel n = target)
  | .wrap m c, target => decide (GoError.wrap m c = target) || GoError.Is c target

/-- The error variable `ErrSignUnsupportedPayloadSignatureType`. -/
def ErrSignUnsupportedPayloadSignatureType : GoError :=
  .sentinel "ErrSignUnsupportedPayloadSignatureType"

/-- The error variable `ErrSignUnsupportedSignatureType`. -/
def ErrSignUnsupportedSignatureType : GoError :=
  .sentinel "ErrSignUnsupportedSignatureType"

/-- The error variable `ErrVerifyUnsupportedPayloadSignatureType`. -/
def ErrVerifyUnsupportedPayloadSignatureType : GoError :=
  .sentinel "ErrVerifyUnsupportedPayloadSignatureType"

/-- The error variable `ErrVerifyFailed`. -/
def ErrVerifyFailed : GoError := .sentinel "ErrVerifyFailed"

/-- The struct `types.AccountIdentifier`, as far as the tests fill it. -/
structure AccountIdentifier where
  Address : String
deriving DecidableEq, Repr

/-- The struct `types.PublicKey`. -/
structure PublicKey where
  Bytes : ByteSlice
  CurveType : String
deriving DecidableEq, Repr

/-- The struct `types.SigningPayload`. -/
structure SigningPayload where
  AccountIdentifier : Option AccountIdentifier
  Bytes : ByteSlice
  SignatureType : SignatureType
deriving DecidableEq, Repr

/-- The struct `types.Signature`; payload and public key are pointers. -/
structure Signature where
  SigningPayload : Option SigningPayload
  PublicKey : Option PublicKey
  SignatureType : SignatureType
  Bytes : ByteSlice
deriving DecidableEq, Repr

/-- The struct `KeyPair`; the public key is a pointer. -/
structure KeyPair where
  PublicKey : Option PublicKey
  PrivateKey : ByteSlice
deriving DecidableEq, Repr

/-- The struct `SignerEdwards25519Keccak`, holding a pointer to a key pair.
The receiver of the three methods is a pointer to such a struct and is taken
to be non-nil. -/
structure SignerEdwards25519Keccak where
  KeyPair : Option KeyPair
deriving DecidableEq, Repr

/-- What a call does: it returns a value or it aborts with a run-time panic. -/
inductive Outcome (α : Type) where
  | ret (a : α)
  | panic
deriving DecidableEq, Repr

/-- The functions of other packages that the signer calls.
* `KeyPairIsValid` is the method `(*KeyPair).IsValid`, called on the signer
  pointer field as it is;
* `asserterSignatures` is `asserter.Signatures`, applied to a slice of
  signatures;
* `nemcryptoNewKeyFromSeed`, `nemcryptoSign` and `nemcryptoVerify` are the
  primitives of the `nemcrypto` package with the hasher
  `sha3.NewLegacyKeccak512()` already supplied.

They are total functions: a panic raised inside one of them is not part of
the model, only the nil dereferences of the signer itself are. -/
structure Collaborators where
  KeyPairIsValid : Option KeyPair → Option GoError
  asserterSignatures : List Signature → Option GoError
  nemcryptoNewKeyFromSeed : ByteSlice → ByteSlice
  nemcryptoSign : ByteSlice → ByteSlice → ByteSlice
  nemcryptoVerify : ByteSlice → ByteSlice → ByteSlice → Bool

/-- The method `PublicKey`: `s.KeyPair.PublicKey`. -/
def SignerEdwards25519Keccak.PublicKey (s : SignerEdwards25519Keccak) :
    Outcome (Option PublicKey) :=
  match s.KeyPair with
  | none => .panic
  | some kp => .ret kp.PublicKey

/-- The method `Sign`.  The result is the Go pair of a signature pointer and
an error. -/
def SignerEdwards25519Keccak.Sign (c : Collaborators) (s : SignerEdwards25519Keccak)
    (payload : Option SigningPayload) (sigType : SignatureType) :
    Outcome (Option Signature × Option GoError) :=
  match c.KeyPairIsValid s.KeyPair with
  | some err => .ret (none, some (.wrap "key pair is invalid" err))
  | none =>
    match payload with
    | none => .panic
    | some p =>
      if ¬ (p.SignatureType = Ed25519_Keccak ∨ p.SignatureType = "") then
        .ret (none, some (.wrap
          ("expected signing payload signature type " ++ Ed25519_Keccak ++
            " but got " ++ p.SignatureType)
          ErrSignUnsupportedPayloadSignatureType))
      else if sigType ≠ Ed25519_Keccak then
        .ret (none, some (.wrap
          ("expected signature type " ++ Ed25519_Keccak ++ " but got " ++ sigType)
          ErrSignUnsupportedSignatureType))
      else
        match s.KeyPair with
        | none => .panic
        | some kp =>
          let privKeyBytes := kp.PrivateKey
          let privKey := c.nemcryptoNewKeyFromSeed privKeyBytes
          let sig := c.nemcryptoSign privKey p.Bytes
          .ret (some
            { SigningPayload := payload
              PublicKey := kp.PublicKey
              SignatureType := p.SignatureType
              Bytes := sig }, none)

/-- The method `Verify`.  The result is the Go error. -/
def SignerEdwards25519Keccak.Verify (c : Collaborators) (_s : SignerEdwards25519Keccak)
    (signature : Option Signature) : Outcome (Option GoError) :=
  match signature with
  | none => .panic
  | some sg =>
    if sg.SignatureType ≠ Ed25519_Keccak then
      .ret (some (.wrap
        ("expected signing payload signature type " ++ Ed25519_Keccak ++
          " but got " ++ sg.SignatureType)
        ErrVerifyUnsupportedPayloadSignatureType))
    else
      match sg.PublicKey with
      | none => .panic
      | some pk =>
        let pubKey := pk.Bytes
        match sg.SigningPayload with
        | none => .panic
        | some p =>
          let message := p.Bytes
          let sig := sg.Bytes
          match c.asserterSignatures [sg] with
          | some err => .ret (some (.wrap "signature is invalid" err))
          | none =>
            let verify := c.nemcryptoVerify pubKey message sig
            if ¬ verify then .ret (some ErrVerifyFailed) else .ret none

/-- A call of `Sign` fails with `target`: it returns a non-nil error for which
`errors.Is(err, target)` holds. -/
def SignFailsWith (o : Outcome (Option Signature × Option GoError)) (target : GoError) : Prop :=
  ∃ sig e, o = .ret (sig, some e) ∧ e.Is target = true

/-- A call of `Verify` fails with `target`: it returns a non-nil error for
which `errors.Is(err, target)` holds. -/
def VerifyFailsWith (o : Outcome (Option GoError)) (target : GoError) : Prop :=
  ∃ e, o = .ret (some e) ∧ e.Is target = true

/-- Modelled from the spec: the test helper `mockSignature`, whose file is not
part of the sources at hand: a signature made of a tag, a public key, a
message and signature bytes, the message being held by a payload that carries
the same tag and the account of the tests. -/
def mockSignature (sigType : SignatureType) (pubkey : Option PublicKey)
    (msg sig : ByteSlice) : Signature :=
  { SigningPayload := some
      { AccountIdentifier := some { Address := "test" }
        Bytes := msg
        SignatureType := sigType }
    PublicKey := pubkey
    SignatureType := sigType
    Bytes := sig }

/-! ## Sample collaborators

A concrete set of collaborators, used to run the signer on concrete inputs. -/

/-- A sample key-pair check: the key pair and its public key are present and
the private key has 32 bytes. -/
def sampleIsValid : Option KeyPair → Option GoError
  | none => some (.sentinel "ErrKeyPairIsNil")
  | some kp =>
    match kp.PublicKey with
    | none => some (.sentinel "ErrPublicKeyIsNil")
    | some _ =>
      if kp.PrivateKey.length ≠ 32 then some (.sentinel "ErrPrivKeyLengthInvalid") else none

/-- A sample generic shape check of a list of signatures: payload and public
key are present and the signature bytes are not empty. -/
def sampleSignatures : List Signature → Option GoError
  | [] => none
  | sg :: rest =>
    match sg.SigningPayload with
    | none => some (.sentinel "ErrSigningPayloadIsNil")
    | some _ =>
      match sg.PublicKey with
      | none => some (.sentinel "ErrPublicKeyIsNil")
      | some _ =>
        if sg.Bytes.length = 0 then some (.sentinel "ErrSignatureBytesEmpty")
        else sampleSignatures rest

/-- The key derivation of the sample scheme: the public key of a seed. -/
def sampleDerive (seed : ByteSlice) : ByteSlice := seed.reverse

/-- The signature of the sample scheme: 64 bytes read off the key, the length
of the message and the message. -/
def sampleSign (key msg : ByteSlice) : ByteSlice :=
  (key ++ (msg.length % 256) :: msg ++ List.replicate 64 0).take 64

/-- Sample collaborators: the sample checks and a toy signature scheme whose
verification recomputes the 64 signature bytes. -/
def sampleCollaborators : Collaborators :=
  { KeyPairIsValid := sampleIsValid
    asserterSignatures := sampleSignatures
    nemcryptoNewKeyFromSeed := sampleDerive
    nemcryptoSign := sampleSign
    nemcryptoVerify := fun pubKey msg sig => decide (sig = sampleSign pubKey msg) }

/-- A sample public key of 32 bytes. -/
def samplePublicKey : PublicKey :=
  { Bytes := (List.range 32).reverse, CurveType := "edwards25519_keccak" }

/-- A sample key pair: the seed 0, 1, ..., 31 and its sample public key. -/
def sampleKeyPair : KeyPair :=
  { PublicKey := some samplePublicKey, PrivateKey := List.range 32 }

/-- A key pair that the sample check rejects: its private key is too short. -/
def shortKeyPair : KeyPair :=
  { PublicKey := some samplePublicKey, PrivateKey := [1, 2, 3] }

/-- The account of the tests. -/
def testAccount : Option AccountIdentifier := some { Address := "test" }

/-- The message of the verification test: "hello" padded with zeros to 32
bytes. -/
def helloBytes : ByteSlice := [104, 101, 108, 108, 111] ++ List.replicate 27 0

/-- A stricter sample validator: beyond the generic shape check it refuses,
for each signature, a payload whose bytes are empty or are all zero. -/
def strictSignatures : List Signature → Option GoError
  | [] => none
  | sg :: rest =>
    match sg.SigningPayload with
    | none => some (.sentinel "ErrSigningPayloadIsNil")
    | some p =>
      if p.Bytes.length = 0 then some (.sentinel "ErrSigningPayloadBytesEmpty")
      else if p.Bytes.all (fun b => b == 0) then some (.sentinel "ErrSigningPayloadBytesZero")
      else
        match sg.PublicKey with
        | none => some (.sentinel "ErrPublicKeyIsNil")
        | some _ =>
          if sg.Bytes.length = 0 then some (.sentinel "ErrSignatureBytesEmpty")
          else strictSignatures rest

/-- The sample collaborators with the stricter validator. -/
def strictCollaborators : Collaborators :=
  { sampleCollaborators with asserterSignatures := strictSignatures }

/-! ## Auxiliary facts -/

theorem GoError.Is_wrap_cause (m : String) (e : GoError) : (GoError.wrap m e).Is e = true := by
  cases e <;> simp [GoError.Is]

theorem Ed25519_Keccak_ne_empty : Ed25519_Keccak ≠ "" := by decide

theorem Ecdsa_ne_Ed25519_Keccak : Ecdsa ≠ Ed25519_Keccak := by decide

theorem EcdsaRecovery_ne_Ed25519_Keccak : EcdsaRecovery ≠ Ed25519_Keccak := by decide

theorem Ecdsa_ne_empty : Ecdsa ≠ "" := by decide

theorem EcdsaRecovery_ne_empty : EcdsaRecovery ≠ "" := by decide

theorem Sign_of_bad_payload_tag (c : Collaborators) (s : SignerEdwards25519Keccak)
    (p : SigningPayload) (sigType : SignatureType)
    (hvalid : c.KeyPairIsValid s.KeyPair = none)
    (h1 : p.SignatureType ≠ "") (h2 : p.SignatureType ≠ Ed25519_Keccak) :
    s.Sign c (some p) sigType = .ret (none, some (.wrap
      ("expected signing payload signature type " ++ Ed25519_Keccak ++
        " but got " ++ p.SignatureType)
      ErrSignUnsupportedPayloadSignatureType)) := by
  simp [SignerEdwards25519Keccak.Sign, hvalid, h1, h2]

theorem Sign_of_good_inputs (c : Collaborators) (kp : KeyPair)
    (p : SigningPayload)
    (hvalid : c.KeyPairIsValid (some kp) = none)
    (h : p.SignatureType = "" ∨ p.SignatureType = Ed25519_Keccak) :
    SignerEdwards25519Keccak.Sign c ⟨some kp⟩ (some p) Ed25519_Keccak = .ret (some
      { SigningPayload := some p
        PublicKey := kp.PublicKey
        SignatureType := p.SignatureType
        Bytes := c.nemcryptoSign (c.nemcryptoNewKeyFromSeed kp.PrivateKey) p.Bytes }, none) := by
  rcases h with h | h <;> simp [SignerEdwards25519Keccak.Sign, hvalid, h]

theorem Verify_of_present_fields (c : Collaborators) (s : SignerEdwards25519Keccak)
    (sg : Signature) (pk : PublicKey) (p : SigningPayload)
    (htag : sg.SignatureType = Ed25519_Keccak)
    (hpk : sg.PublicKey = some pk) (hp : sg.SigningPayload = some p) :
    s.Verify c (some sg) =
      match c.asserterSignatures [sg] with
      | some err => .ret (some (.wrap "signature is invalid" err))
      | none =>
        if c.nemcryptoVerify pk.Bytes p.Bytes sg.Bytes = true then .ret none
        else .ret (some ErrVerifyFailed) := by
  simp only [SignerEdwards25519Keccak.Verify, htag, hpk, hp]
  cases c.asserterSignatures [sg] with
  | some err => simp
  | none => cases c.nemcryptoVerify pk.Bytes p.Bytes sg.Bytes <;> simp

/-! ## Sign: validation -/

/-- C1. For a signer whose key pair is valid and a requested algorithm
Ed25519_Keccak, Sign fails with ErrSignUnsupportedPayloadSignatureType exactly
when the payload tag is neither empty nor Ed25519_Keccak; a payload tagged ""
or Ed25519_Keccak is signed, and a payload tagged Ecdsa or EcdsaRecovery fails
with that error. -/
theorem Sign_payload_tag_check (c : Collaborators) (kp : KeyPair) (p : SigningPayload)
    (hvalid : c.KeyPairIsValid (some kp) = none) :
    (SignFailsWith (SignerEdwards25519Keccak.Sign c ⟨some kp⟩ (some p) Ed25519_Keccak)
        ErrSignUnsupportedPayloadSignatureType ↔
      (p.SignatureType ≠ "" ∧ p.SignatureType ≠ Ed25519_Keccak)) ∧
    ((p.SignatureType = "" ∨ p.SignatureType = Ed25519_Keccak) →
      ∃ sig, SignerEdwards25519Keccak.Sign c ⟨some kp⟩ (some p) Ed25519_Keccak =
        .ret (some sig, none)) ∧
    ((p.SignatureType = Ecdsa ∨ p.SignatureType = EcdsaRecovery) →
      SignFailsWith (SignerEdwards25519Keccak.Sign c ⟨some kp⟩ (some p) Ed25519_Keccak)
        ErrSignUnsupportedPayloadSignatureType) := by
  have hbad : p.SignatureType ≠ "" → p.SignatureType ≠ Ed25519_Keccak →
      SignFailsWith (SignerEdwards25519Keccak.Sign c ⟨some kp⟩ (some p) Ed25519_Keccak)
        ErrSignUnsupportedPayloadSignatureType := by
    intro h1 h2
    exact ⟨none, _, Sign_of_bad_payload_tag c ⟨some kp⟩ p Ed25519_Keccak hvalid h1 h2,
      GoError.Is_wrap_cause _ _⟩
  refine ⟨⟨?_, fun h => hbad h.1 h.2⟩, ?_, ?_⟩
  · rintro ⟨sig, e, hret, -⟩
    by_contra hgood
    have hok : p.SignatureType = "" ∨ p.SignatureType = Ed25519_Keccak := by
      by_cases h1 : p.SignatureType = ""
      · exact Or.inl h1
      · by_cases h2 : p.SignatureType = Ed25519_Keccak
        · exact Or.inr h2
        · exact absurd ⟨h1, h2⟩ hgood
    rw [Sign_of_good_inputs c kp p hvalid hok] at hret
    simp at hret
  · intro hok
    exact ⟨_, Sign_of_good_inputs c kp p hvalid hok⟩
  · rintro (h | h)
    · exact hbad (h ▸ Ecdsa_ne_empty) (h ▸ Ecdsa_ne_Ed25519_Keccak)
    · exact hbad (h ▸ EcdsaRecovery_ne_empty) (h ▸ EcdsaRecovery_ne_Ed25519_Keccak)

/-- Witness of C1: under the sample collaborators the sample key pair is valid
and a payload of 32 zero bytes with the empty tag is signed. -/
theorem Sign_payload_tag_check_witness :
    sampleCollaborators.KeyPairIsValid (some sampleKeyPair) = none ∧
    ∃ sig, SignerEdwards25519Keccak.Sign sampleCollaborators ⟨some sampleKeyPair⟩
      (some ⟨testAccount, List.replicate 32 0, ""⟩) Ed25519_Keccak = .ret (some sig, none) :=
  ⟨by decide,
    (Sign_payload_tag_check sampleCollaborators sampleKeyPair
      ⟨testAccount, List.replicate 32 0, ""⟩ (by decide)).2.1 (Or.inl rfl)⟩

/-- C2. Sign reports the first validation that fails: (1) an invalid key pair
gives the invalid-key-pair error whatever the payload and the requested
algorithm are; (2) otherwise a payload tag that is neither empty nor
Ed25519_Keccak gives ErrSignUnsupportedPayloadSignatureType whatever the
requested algorithm is; (3) otherwise a requested algorithm other than
Ed25519_Keccak gives ErrSignUnsupportedSignatureType; and whenever Sign returns
an error it returns no Signature. -/
theorem Sign_validation_order (c : Collaborators) (s : SignerEdwards25519Keccak)
    (payload : Option SigningPayload) (sigType : SignatureType) :
    (∀ err, c.KeyPairIsValid s.KeyPair = some err →
      s.Sign c payload sigType = .ret (none, some (.wrap "key pair is invalid" err))) ∧
    (∀ p, c.KeyPairIsValid s.KeyPair = none → payload = some p →
      p.SignatureType ≠ "" → p.SignatureType ≠ Ed25519_Keccak →
      s.Sign c payload sigType = .ret (none, some (.wrap
        ("expected signing payload signature type " ++ Ed25519_Keccak ++
          " but got " ++ p.SignatureType)
        ErrSignUnsupportedPayloadSignatureType))) ∧
    (∀ p, c.KeyPairIsValid s.KeyPair = none → payload = some p →
      (p.SignatureType = "" ∨ p.SignatureType = Ed25519_Keccak) →
      sigType ≠ Ed25519_Keccak →
      s.Sign c payload sigType = .ret (none, some (.wrap
        ("expected signature type " ++ Ed25519_Keccak ++ " but got " ++ sigType)
        ErrSignUnsupportedSignatureType))) ∧
    (∀ sig err, s.Sign c payload sigType = .ret (sig, some err) → sig = none) := by
  refine ⟨?_, ?_, ?_, ?_⟩
  · intro err h
    simp [SignerEdwards25519Keccak.Sign, h]
  · intro p hvalid hp h1 h2
    subst hp
    exact Sign_of_bad_payload_tag c s p sigType hvalid h1 h2
  · intro p hvalid hp hok hsig
    subst hp
    rcases hok with h | h <;> simp [SignerEdwards25519Keccak.Sign, hvalid, h, hsig]
  · intro sig err h
    unfold SignerEdwards25519Keccak.Sign at h
    split at h
    · simp at h; exact h.1.symm
    · split at h
      · simp at h
      · split at h
        · simp at h; exact h.1.symm
        · split at h
          · simp at h; exact h.1.symm
          · split at h <;> simp at h

/-- Witness of C2: the three validations at concrete inputs.  A key pair with
a short private key is rejected first, although the payload is absent; a
payload tagged Ecdsa is rejected next, although the requested algorithm is
wrong too; a wrong requested algorithm is rejected last. -/
theorem Sign_validation_order_witness :
    SignerEdwards25519Keccak.Sign sampleCollaborators ⟨some shortKeyPair⟩ none Ecdsa =
      .ret (none, some (.wrap "key pair is invalid" (.sentinel "ErrPrivKeyLengthInvalid"))) ∧
    SignerEdwards25519Keccak.Sign sampleCollaborators ⟨some sampleKeyPair⟩
      (some ⟨testAccount, helloBytes, Ecdsa⟩) Ecdsa =
      .ret (none, some (.wrap
        ("expected signing payload signature type " ++ Ed25519_Keccak ++ " but got " ++ Ecdsa)
        ErrSignUnsupportedPayloadSignatureType)) ∧
    SignerEdwards25519Keccak.Sign sampleCollaborators ⟨some sampleKeyPair⟩
      (some ⟨testAccount, helloBytes, ""⟩) Ecdsa =
      .ret (none, some (.wrap
        ("expected signature type " ++ Ed25519_Keccak ++ " but got " ++ Ecdsa)
        ErrSignUnsupportedSignatureType)) :=
  ⟨(Sign_validation_order sampleCollaborators ⟨some shortKeyPair⟩ none Ecdsa).1 _ (by decide),
    (Sign_validation_order sampleCollaborators ⟨some sampleKeyPair⟩
      (some ⟨testAccount, helloBytes, Ecdsa⟩) Ecdsa).2.1 _ (by decide) rfl
      Ecdsa_ne_empty Ecdsa_ne_Ed25519_Keccak,
    (Sign_validation_order sampleCollaborators ⟨some sampleKeyPair⟩
      (some ⟨testAccount, helloBytes, ""⟩) Ecdsa).2.2.1 _ (by decide) rfl
      (Or.inl rfl) Ecdsa_ne_Ed25519_Keccak⟩

/-! ## Sign: the returned signature -/

/-- C3. Whenever Sign succeeds, the returned Signature holds the payload
pointer that was passed in, the public key of the signer key pair (which is
what PublicKey() returns) and the signature type of the payload; with the
empty payload tag the returned type is empty and so differs from the requested
algorithm. -/
theorem Sign_result_fields (c : Collaborators) (s : SignerEdwards25519Keccak)
    (payload : Option SigningPayload) (sigType : SignatureType) (sig : Signature)
    (h : s.Sign c payload sigType = .ret (some sig, none)) :
    sig.SigningPayload = payload ∧
    s.PublicKey = .ret sig.PublicKey ∧
    ∃ kp p, s.KeyPair = some kp ∧ payload = some p ∧
      sig.PublicKey = kp.PublicKey ∧
      sig.SignatureType = p.SignatureType ∧
      sig.Bytes = c.nemcryptoSign (c.nemcryptoNewKeyFromSeed kp.PrivateKey) p.Bytes ∧
      (p.SignatureType = "" → sig.SignatureType = "" ∧ sig.SignatureType ≠ sigType) := by
  unfold SignerEdwards25519Keccak.Sign at h
  split at h
  · simp at h
  · split at h
    · simp at h
    · rename_i p
      split at h
      · simp at h
      · split at h
        · simp at h
        · rename_i hsig
          split at h
          · simp at h
          · rename_i kp hkp
            simp only [Outcome.ret.injEq, Prod.mk.injEq, Option.some.injEq, and_true] at h
            subst h
            have hs : sigType = Ed25519_Keccak := by simpa using hsig
            refine ⟨rfl, ?_, kp, p, hkp, rfl, rfl, rfl, rfl, ?_⟩
            · simp [SignerEdwards25519Keccak.PublicKey, hkp]
            · intro hp
              refine ⟨hp, ?_⟩
              simp only [hp, hs]
              exact fun h0 => Ed25519_Keccak_ne_empty h0.symm

/-- Witness of C3: Sign succeeds for the sample key pair and a payload with
the empty tag, and the returned signature type is the empty tag of the
payload, not the requested Ed25519_Keccak. -/
theorem Sign_result_fields_witness :
    SignerEdwards25519Keccak.Sign sampleCollaborators ⟨some sampleKeyPair⟩
        (some ⟨testAccount, helloBytes, ""⟩) Ed25519_Keccak =
      .ret (some ⟨some ⟨testAccount, helloBytes, ""⟩, some samplePublicKey, "",
        sampleSign (sampleDerive (List.range 32)) helloBytes⟩, none) ∧
    SignerEdwards25519Keccak.PublicKey ⟨some sampleKeyPair⟩ = .ret (some samplePublicKey) :=
  have h : SignerEdwards25519Keccak.Sign sampleCollaborators ⟨some sampleKeyPair⟩
        (some ⟨testAccount, helloBytes, ""⟩) Ed25519_Keccak =
      .ret (some ⟨some ⟨testAccount, helloBytes, ""⟩, some samplePublicKey, "",
        sampleSign (sampleDerive (List.range 32)) helloBytes⟩, none) :=
    Sign_of_good_inputs sampleCollaborators sampleKeyPair _ (by decide) (Or.inl rfl)
  ⟨h, (Sign_result_fields sampleCollaborators ⟨some sampleKeyPair⟩ _ _ _ h).2.1⟩

/-! ## Sign followed by Verify -/

/-- C4, as the specification states it, fails.  Under the sample collaborators
with the stricter validator the key pair is valid, its public key is the one
derived from its private key and the scheme is correct, and signing the
message of 32 zero bytes under the tag Ed25519_Keccak succeeds; but Verify, on
the signature made of the same tag, the public key of the signer, the message
and the produced bytes, returns the invalid-signature-structure error. -/
theorem Sign_Verify_zero_message_counterexample :
    strictCollaborators.KeyPairIsValid (some sampleKeyPair) = none ∧
    samplePublicKey.Bytes = sampleDerive sampleKeyPair.PrivateKey ∧
    (∀ seed msg, strictCollaborators.nemcryptoVerify (sampleDerive seed) msg
      (strictCollaborators.nemcryptoSign (strictCollaborators.nemcryptoNewKeyFromSeed seed)
        msg) = true) ∧
    ∃ sig, SignerEdwards25519Keccak.Sign strictCollaborators ⟨some sampleKeyPair⟩
        (some ⟨testAccount, List.replicate 32 0, Ed25519_Keccak⟩) Ed25519_Keccak =
        .ret (some sig, none) ∧
      SignerEdwards25519Keccak.Verify strictCollaborators ⟨some sampleKeyPair⟩
        (some (mockSignature Ed25519_Keccak (some samplePublicKey) (List.replicate 32 0)
          sig.Bytes)) =
        .ret (some (.wrap "signature is invalid" (.sentinel "ErrSigningPayloadBytesZero"))) := by
  refine ⟨by decide, by decide, ?_, _,
    Sign_of_good_inputs strictCollaborators sampleKeyPair _ (by decide) (Or.inr rfl), ?_⟩
  · intro seed msg
    simp [strictCollaborators, sampleCollaborators]
  · rw [Verify_of_present_fields strictCollaborators _ _ samplePublicKey
      ⟨testAccount, List.replicate 32 0, Ed25519_Keccak⟩ rfl rfl rfl]
    have h1 : ∀ bytes, strictCollaborators.asserterSignatures
        [mockSignature Ed25519_Keccak (some samplePublicKey) (List.replicate 32 0) bytes] =
        some (.sentinel "ErrSigningPayloadBytesZero") := by
      intro bytes
      simp [strictCollaborators, strictSignatures, mockSignature]
    simp only [h1]

/-- C4, amended.  Round trip up to the structural validator.  Let the
signature scheme be correct (what the signing primitive makes with the key
expanded from a seed is accepted under the public key derived from that seed)
and let the key pair be valid, its public key being the one derived from its
private key.  Then signing a payload that carries M and the tag
Ed25519_Keccak, with requested algorithm Ed25519_Keccak, succeeds; and on the
signature made of the same tag, the public key of the signer, M and the
produced bytes, Verify returns no error when the structural validator accepts
that signature, and the invalid-signature-structure error around the error of
the validator when it does not. -/
theorem Sign_Verify_roundtrip (c : Collaborators) (derive : ByteSlice → ByteSlice)
    (kp : KeyPair) (pk : PublicKey) (acct : Option AccountIdentifier) (M : ByteSlice)
    (hscheme : ∀ seed msg, c.nemcryptoVerify (derive seed) msg
      (c.nemcryptoSign (c.nemcryptoNewKeyFromSeed seed) msg) = true)
    (hvalid : c.KeyPairIsValid (some kp) = none)
    (hpk : kp.PublicKey = some pk) (hderive : pk.Bytes = derive kp.PrivateKey) :
    ∃ sig, SignerEdwards25519Keccak.Sign c ⟨some kp⟩ (some ⟨acct, M, Ed25519_Keccak⟩)
        Ed25519_Keccak = .ret (some sig, none) ∧
      SignerEdwards25519Keccak.PublicKey ⟨some kp⟩ = .ret (some pk) ∧
      (c.asserterSignatures [mockSignature Ed25519_Keccak (some pk) M sig.Bytes] = none →
        SignerEdwards25519Keccak.Verify c ⟨some kp⟩
          (some (mockSignature Ed25519_Keccak (some pk) M sig.Bytes)) = .ret none) ∧
      (∀ err,
        c.asserterSignatures [mockSignature Ed25519_Keccak (some pk) M sig.Bytes] = some err →
        SignerEdwards25519Keccak.Verify c ⟨some kp⟩
          (some (mockSignature Ed25519_Keccak (some pk) M sig.Bytes)) =
          .ret (some (.wrap "signature is invalid" err))) := by
  refine ⟨_, Sign_of_good_inputs c kp ⟨acct, M, Ed25519_Keccak⟩ hvalid (Or.inr rfl), ?_, ?_, ?_⟩
  · simp [SignerEdwards25519Keccak.PublicKey, hpk]
  · intro hstruct
    have hv := hscheme kp.PrivateKey M
    rw [← hderive] at hv
    rw [Verify_of_present_fields c _ _ pk ⟨testAccount, M, Ed25519_Keccak⟩ rfl rfl rfl]
    simp only [hstruct]
    simp only [mockSignature, hv]
    simp
  · intro err herr
    rw [Verify_of_present_fields c _ _ pk ⟨testAccount, M, Ed25519_Keccak⟩ rfl rfl rfl]
    simp only [herr]

/-- Witness of C4 amended: the round trip of the verification test (the
message "hello" padded to 32 bytes) under the sample collaborators, whose
validator accepts the assembled signature. -/
theorem Sign_Verify_roundtrip_witness :
    ∃ sig, SignerEdwards25519Keccak.Sign sampleCollaborators ⟨some sampleKeyPair⟩
        (some ⟨testAccount, helloBytes, Ed25519_Keccak⟩) Ed25519_Keccak =
        .ret (some sig, none) ∧
      SignerEdwards25519Keccak.PublicKey ⟨some sampleKeyPair⟩ = .ret (some samplePublicKey) ∧
      SignerEdwards25519Keccak.Verify sampleCollaborators ⟨some sampleKeyPair⟩
        (some (mockSignature Ed25519_Keccak (some samplePublicKey) helloBytes sig.Bytes)) =
        .ret none :=
  match Sign_Verify_roundtrip sampleCollaborators sampleDerive sampleKeyPair samplePublicKey
    testAccount helloBytes
    (by intro seed msg; simp [sampleCollaborators])
    (by decide) rfl (by decide) with
  | ⟨sig, hsign, hpub, hok, _⟩ =>
    have hb : sig.Bytes = sampleSign (sampleDerive (List.range 32)) helloBytes := by
      have h0 := Sign_of_good_inputs sampleCollaborators sampleKeyPair
        ⟨testAccount, helloBytes, Ed25519_Keccak⟩ (by decide) (Or.inr rfl)
      rw [h0] at hsign
      simp only [Outcome.ret.injEq, Prod.mk.injEq, Option.some.injEq, and_true] at hsign
      rw [← hsign]
      rfl
    ⟨sig, hsign, hpub, hok (by rw [hb]; decide)⟩

/-- C5, as the specification states it, fails: under the sample collaborators
Sign succeeds on a payload of 32 zero bytes with the empty tag and gives 64
bytes, but Verify does not succeed on the Signature that Sign returned. -/
theorem Sign_empty_tag_Verify_counterexample :
    ∃ sig, SignerEdwards25519Keccak.Sign sampleCollaborators ⟨some sampleKeyPair⟩
        (some ⟨testAccount, List.replicate 32 0, ""⟩) Ed25519_Keccak = .ret (some sig, none) ∧
      sig.Bytes.length = 64 ∧
      SignerEdwards25519Keccak.Verify sampleCollaborators ⟨some sampleKeyPair⟩ (some sig) ≠
        .ret none := by
  refine ⟨_, Sign_of_good_inputs sampleCollaborators sampleKeyPair _ (by decide) (Or.inl rfl),
    by decide, ?_⟩
  simp [SignerEdwards25519Keccak.Verify, Ed25519_Keccak]

/-- C5, amended.  For a valid key pair and a payload of 32 zero bytes with the
empty tag, Sign with requested algorithm Ed25519_Keccak succeeds; the
Signature holds the bytes of the signing primitive (64 of them when the
primitive gives 64 bytes) and the empty tag of the payload, and Verify applied
to the Signature that Sign returned fails with
ErrVerifyUnsupportedPayloadSignatureType. -/
theorem Sign_empty_tag_then_Verify_rejects (c : Collaborators) (kp : KeyPair)
    (acct : Option AccountIdentifier)
    (hvalid : c.KeyPairIsValid (some kp) = none)
    (hlen : ∀ key msg, (c.nemcryptoSign key msg).length = 64) :
    ∃ sig, SignerEdwards25519Keccak.Sign c ⟨some kp⟩
        (some ⟨acct, List.replicate 32 0, ""⟩) Ed25519_Keccak = .ret (some sig, none) ∧
      sig.Bytes.length = 64 ∧
      sig.SignatureType = "" ∧
      SignerEdwards25519Keccak.Verify c ⟨some kp⟩ (some sig) = .ret (some (.wrap
        ("expected signing payload signature type " ++ Ed25519_Keccak ++ " but got " ++ "")
        ErrVerifyUnsupportedPayloadSignatureType)) ∧
      VerifyFailsWith (SignerEdwards25519Keccak.Verify c ⟨some kp⟩ (some sig))
        ErrVerifyUnsupportedPayloadSignatureType := by
  have hv : SignerEdwards25519Keccak.Verify c ⟨some kp⟩ (some
      { SigningPayload := some ⟨acct, List.replicate 32 0, ""⟩
        PublicKey := kp.PublicKey
        SignatureType := ""
        Bytes := c.nemcryptoSign (c.nemcryptoNewKeyFromSeed kp.PrivateKey)
          (List.replicate 32 0) }) = .ret (some (.wrap
        ("expected signing payload signature type " ++ Ed25519_Keccak ++ " but got " ++ "")
        ErrVerifyUnsupportedPayloadSignatureType)) := by
    have hne : ("" : String) ≠ Ed25519_Keccak := fun h => Ed25519_Keccak_ne_empty h.symm
    simp [SignerEdwards25519Keccak.Verify, hne]
  exact ⟨_, Sign_of_good_inputs c kp _ hvalid (Or.inl rfl), hlen _ _, rfl, hv,
    _, hv, GoError.Is_wrap_cause _ _⟩

/-- Witness of C5 amended, under the sample collaborators. -/
theorem Sign_empty_tag_then_Verify_rejects_witness :
    ∃ sig, SignerEdwards25519Keccak.Sign sampleCollaborators ⟨some sampleKeyPair⟩
        (some ⟨testAccount, List.replicate 32 0, ""⟩) Ed25519_Keccak = .ret (some sig, none) ∧
      sig.Bytes.length = 64 ∧
      sig.SignatureType = "" ∧
      SignerEdwards25519Keccak.Verify sampleCollaborators ⟨some sampleKeyPair⟩ (some sig) =
        .ret (some (.wrap
          ("expected signing payload signature type " ++ Ed25519_Keccak ++ " but got " ++ "")
          ErrVerifyUnsupportedPayloadSignatureType)) ∧
      VerifyFailsWith
        (SignerEdwards25519Keccak.Verify sampleCollaborators ⟨some sampleKeyPair⟩ (some sig))
        ErrVerifyUnsupportedPayloadSignatureType :=
  Sign_empty_tag_then_Verify_rejects sampleCollaborators sampleKeyPair testAccount
    (by decide) (by intro key msg; simp [sampleCollaborators, sampleSign]; omega)

/-! ## Verify -/

/-- C6. For every signature whose signature type is not exactly
Ed25519_Keccak, Verify fails with ErrVerifyUnsupportedPayloadSignatureType; the
returned error is a function of the tag alone, so it is the same for every
public key, payload and bytes (present or absent) and for every structural
validator and primitive. -/
theorem Verify_rejects_other_tags (c : Collaborators) (s : SignerEdwards25519Keccak)
    (sg : Signature) (h : sg.SignatureType ≠ Ed25519_Keccak) :
    s.Verify c (some sg) = .ret (some (.wrap
      ("expected signing payload signature type " ++ Ed25519_Keccak ++
        " but got " ++ sg.SignatureType)
      ErrVerifyUnsupportedPayloadSignatureType)) ∧
    VerifyFailsWith (s.Verify c (some sg)) ErrVerifyUnsupportedPayloadSignatureType ∧
    ∀ (c2 : Collaborators) (s2 : SignerEdwards25519Keccak) (sg2 : Signature),
      sg2.SignatureType = sg.SignatureType →
      SignerEdwards25519Keccak.Verify c2 s2 (some sg2) = s.Verify c (some sg) := by
  have hv : ∀ (c2 : Collaborators) (s2 : SignerEdwards25519Keccak) (sg2 : Signature),
      sg2.SignatureType = sg.SignatureType →
      SignerEdwards25519Keccak.Verify c2 s2 (some sg2) = .ret (some (.wrap
        ("expected signing payload signature type " ++ Ed25519_Keccak ++
          " but got " ++ sg.SignatureType)
        ErrVerifyUnsupportedPayloadSignatureType)) := by
    intro c2 s2 sg2 h2
    simp [SignerEdwards25519Keccak.Verify, h2, h]
  refine ⟨hv c s sg rfl, ⟨_, hv c s sg rfl, GoError.Is_wrap_cause _ _⟩, ?_⟩
  intro c2 s2 sg2 h2
  rw [hv c2 s2 sg2 h2, hv c s sg rfl]

/-- Witness of C6: the empty tag on a signature without public key and
payload, and the tags Ecdsa and EcdsaRecovery of the verification test. -/
theorem Verify_rejects_other_tags_witness :
    VerifyFailsWith (SignerEdwards25519Keccak.Verify sampleCollaborators ⟨some sampleKeyPair⟩
      (some ⟨none, none, "", []⟩)) ErrVerifyUnsupportedPayloadSignatureType ∧
    VerifyFailsWith (SignerEdwards25519Keccak.Verify sampleCollaborators ⟨some sampleKeyPair⟩
      (some (mockSignature Ecdsa (some samplePublicKey) helloBytes helloBytes)))
      ErrVerifyUnsupportedPayloadSignatureType ∧
    VerifyFailsWith (SignerEdwards25519Keccak.Verify sampleCollaborators ⟨some sampleKeyPair⟩
      (some (mockSignature EcdsaRecovery (some samplePublicKey) helloBytes helloBytes)))
      ErrVerifyUnsupportedPayloadSignatureType :=
  ⟨(Verify_rejects_other_tags sampleCollaborators ⟨some sampleKeyPair⟩ ⟨none, none, "", []⟩
      (fun h => Ed25519_Keccak_ne_empty h.symm)).2.1,
    (Verify_rejects_other_tags sampleCollaborators ⟨some sampleKeyPair⟩
      (mockSignature Ecdsa (some samplePublicKey) helloBytes helloBytes)
      Ecdsa_ne_Ed25519_Keccak).2.1,
    (Verify_rejects_other_tags sampleCollaborators ⟨some sampleKeyPair⟩
      (mockSignature EcdsaRecovery (some samplePublicKey) helloBytes helloBytes)
      EcdsaRecovery_ne_Ed25519_Keccak).2.1⟩

/-- C7 fails on the code: on a signature tagged Ed25519_Keccak whose public
key is nil, or whose signing payload is nil, Verify aborts with a nil
dereference, for every structural validator: the fields are read before
the validator is called. -/
theorem Verify_panics_on_nil_fields (c : Collaborators) (s : SignerEdwards25519Keccak)
    (payload : Option SigningPayload) (pk : PublicKey) (bytes : ByteSlice) :
    s.Verify c (some ⟨payload, none, Ed25519_Keccak, bytes⟩) = .panic ∧
    s.Verify c (some ⟨none, some pk, Ed25519_Keccak, bytes⟩) = .panic := by
  constructor <;> simp [SignerEdwards25519Keccak.Verify]

/-- C9. For every signature tagged Ed25519_Keccak that passes structural
validation (public key and payload present, validator without error), Verify
succeeds exactly when the Edwards25519 check of public key, message and
signature bytes holds, and when the check does not hold the returned error is
the bare value ErrVerifyFailed, which wraps nothing. -/
theorem Verify_crypto_check (c : Collaborators) (s : SignerEdwards25519Keccak)
    (sg : Signature) (pk : PublicKey) (p : SigningPayload)
    (htag : sg.SignatureType = Ed25519_Keccak)
    (hpk : sg.PublicKey = some pk) (hp : sg.SigningPayload = some p)
    (hstruct : c.asserterSignatures [sg] = none) :
    (s.Verify c (some sg) = .ret none ↔
      c.nemcryptoVerify pk.Bytes p.Bytes sg.Bytes = true) ∧
    (c.nemcryptoVerify pk.Bytes p.Bytes sg.Bytes = false →
      s.Verify c (some sg) = .ret (some ErrVerifyFailed)) ∧
    (∀ msg cause, s.Verify c (some sg) ≠ .ret (some (.wrap msg cause))) := by
  have hv := Verify_of_present_fields c s sg pk p htag hpk hp
  rw [hv, hstruct]
  cases c.nemcryptoVerify pk.Bytes p.Bytes sg.Bytes <;> simp [ErrVerifyFailed]

/-- Witness of C9, under the sample collaborators, as in the verification
test: the signature over the 32-byte message is accepted, and the same bytes
presented with a 40-byte message get the bare ErrVerifyFailed. -/
theorem Verify_crypto_check_witness :
    SignerEdwards25519Keccak.Verify sampleCollaborators ⟨some sampleKeyPair⟩
      (some (mockSignature Ed25519_Keccak (some samplePublicKey) helloBytes
        (sampleSign samplePublicKey.Bytes helloBytes))) = .ret none ∧
    SignerEdwards25519Keccak.Verify sampleCollaborators ⟨some sampleKeyPair⟩
      (some (mockSignature Ed25519_Keccak (some samplePublicKey) (helloBytes ++ List.replicate 8 0)
        (sampleSign samplePublicKey.Bytes helloBytes))) = .ret (some ErrVerifyFailed) :=
  ⟨(Verify_crypto_check sampleCollaborators ⟨some sampleKeyPair⟩
      (mockSignature Ed25519_Keccak (some samplePublicKey) helloBytes
        (sampleSign samplePublicKey.Bytes helloBytes))
      samplePublicKey ⟨testAccount, helloBytes, Ed25519_Keccak⟩ rfl rfl rfl
      (by decide)).1.2 (by decide),
    (Verify_crypto_check sampleCollaborators ⟨some sampleKeyPair⟩
      (mockSignature Ed25519_Keccak (some samplePublicKey) (helloBytes ++ List.replicate 8 0)
        (sampleSign samplePublicKey.Bytes helloBytes))
      samplePublicKey ⟨testAccount, helloBytes ++ List.replicate 8 0, Ed25519_Keccak⟩ rfl rfl rfl
      (by decide)).2.1 (by decide)⟩

/-- C10. Verify does not depend on the signer: any two signers, whatever their
key pairs (different, invalid or absent), give the same result on every
signature under the same collaborators; so a signature that one signer
accepts is accepted by every other signer. -/
theorem Verify_ignores_signer (c : Collaborators) (s1 s2 : SignerEdwards25519Keccak)
    (signature : Option Signature) :
    s1.Verify c signature = s2.Verify c signature ∧
    s1.Verify c signature = SignerEdwards25519Keccak.Verify c ⟨none⟩ signature :=
  ⟨rfl, rfl⟩

end keys
